import Mathlib

/-!
Shallow embedding of the document-preprocessing pipeline
(`src/pipeline_manager.py`, `src/main.py`, `src/steps/step_01_normalize_input.py`,
`src/steps/step_02_preprocess_image.py`, `src/steps/step_03_layout_analysis.py`).

External collaborators (pdf2image, PIL, cv2 primitives, layoutparser) are
modelled as opaque parameters; the orchestration, flattening, dispatch,
filter-chain and caching logic is translated from the source.
-/

/-- Result of one `normalize_file` call: a PDF yields a list of page paths,
an image yields a single path (`Union[List[str], str]` in the source). -/
inductive NormResult where
  | one : String → NormResult
  | many : List String → NormResult
deriving DecidableEq, Repr

/-- The flattening loop of `PipelineManager._run_step_01_normalize_input`:
starting from an empty list, a list result is spliced with `extend`, a
scalar result appended with `append`. -/
def flattenResults (results : List NormResult) : List String :=
  results.foldl
    (fun acc r =>
      match r with
      | NormResult.many l => acc ++ l
      | NormResult.one s => acc ++ [s])
    []

/-- The spec's wording of the flattening law: the order-preserving
concatenation of `[r_i]` if scalar or `r_i` itself if a sequence. -/
def flattenResultsSpec (results : List NormResult) : List String :=
  (results.map fun r =>
    match r with
    | NormResult.many l => l
    | NormResult.one s => [s]).flatten

/-- Stage name literal used in `PipelineManager.run`. -/
def step01Name : String := "step_01_normalize_input"

/-- Stage name literal used in `PipelineManager.run`. -/
def step02Name : String := "step_02_preprocess_image"

/-- Stage name literal used in `PipelineManager.run`. -/
def step03Name : String := "step_03_layout_analysis"

/-- Message of the `ValueError` raised before step 2. -/
def err02 : String :=
  "Cannot run step_02_preprocess_image without output from the previous step."

/-- Message of the `ValueError` raised before step 3. -/
def err03 : String :=
  "Cannot run step_03_layout_analysis without output from the previous step."

/-- The per-file stage functions and discovery results, abstracted: the
results of `normalize_file` on each discovered input file, the per-file
behaviour of step 2's `process_image`, and of step 3's `process_image`
(which returns a `(json_path, viz_path)` pair). -/
structure PipelineEnv where
  normalizeResults : List NormResult
  preprocessOne : String → String
  layoutOne : String → String × String

/-- The orchestrator's mutable state during `PipelineManager.run`: which
stage runners have been invoked so far (in order), and the current value
of the `step_input_files` variable (`none` models Python's `None`). -/
structure RunState where
  invoked : List String
  files : Option (List String)
deriving DecidableEq, Repr

/-- Abort record for a raised `ValueError`: the runners invoked before the
raise, and the error message. -/
structure GateError where
  invoked : List String
  message : String
deriving DecidableEq, Repr

/-- Python falsiness of `step_input_files` as used in `if not step_input_files`:
`None` and the empty list are falsy. -/
def isFalsy : Option (List String) → Bool
  | none => true
  | some [] => true
  | some (_ :: _) => false

/-- Body of `PipelineManager._run_step_01_normalize_input` after the
per-file dispatch: flatten the list of per-file results. -/
def runStep01 (env : PipelineEnv) : List String :=
  flattenResults env.normalizeResults

/-- Body of `PipelineManager._run_step_02_preprocess_image`: one
`process_image` call per input file, results collected in order. -/
def runStep02 (env : PipelineEnv) (input_files : List String) : List String :=
  input_files.map env.preprocessOne

/-- Body of `PipelineManager._run_step_03_layout_analysis`: one layout
`process_image` call per input file, then the first component (json path)
of each result pair is kept. -/
def runStep03 (env : PipelineEnv) (input_files : List String) : List String :=
  (input_files.map env.layoutOne).map Prod.fst

/-- State after the step-1 block of `PipelineManager.run`: if
`"step_01_normalize_input" in pipeline_steps` its runner is invoked and
`step_input_files` is set to its output; otherwise the state is the
initial one (`step_input_files = None`, nothing invoked). -/
def afterStep01 (pipeline : List String) (env : PipelineEnv) : RunState :=
  if pipeline.contains step01Name then
    { invoked := [step01Name], files := some (runStep01 env) }
  else
    { invoked := [], files := none }

/-- One of the two guarded blocks of `PipelineManager.run` for a stage
after the first: skipped when the stage name is not in the pipeline list;
otherwise raises a `ValueError` when `step_input_files` is falsy, and else
invokes the stage's runner and replaces `step_input_files` with its
output. -/
def guardedStage (enabled : Bool) (name message : String)
    (runner : List String → List String) (s : RunState) :
    Except GateError RunState :=
  if enabled then
    if isFalsy s.files then
      Except.error { invoked := s.invoked, message := message }
    else
      Except.ok { invoked := s.invoked ++ [name],
                  files := some (runner (s.files.getD [])) }
  else
    Except.ok s

namespace PipelineManager

/-- `PipelineManager.run`: the step-1 block, then the guarded step-2 and
step-3 blocks in the fixed textual order of the source, each testing
membership of its stage name in the configured `app.pipeline` list. -/
def run (pipeline : List String) (env : PipelineEnv) :
    Except GateError RunState :=
  match guardedStage (pipeline.contains step02Name) step02Name err02
      (runStep02 env) (afterStep01 pipeline env) with
  | Except.error e => Except.error e
  | Except.ok s2 =>
      guardedStage (pipeline.contains step03Name) step03Name err03
        (runStep03 env) s2

end PipelineManager

/-- The ordered list of stage runners a run invoked, whether it aborted or
finished. -/
def invokedList : Except GateError RunState → List String
  | Except.error e => e.invoked
  | Except.ok s => s.invoked

/-- A concrete environment for witnesses and counterexamples: one
normalized file, a prefixing preprocess function, a pairing layout
function. -/
def exEnv : PipelineEnv :=
  { normalizeResults := [NormResult.one "a.png"]
  , preprocessOne := fun s => String.append "pre_" s
  , layoutOne := fun s => (String.append s ".json", String.append s ".png") }

/-- An environment whose normalize step discovers nothing. -/
def emptyEnv : PipelineEnv :=
  { normalizeResults := []
  , preprocessOne := fun s => s
  , layoutOne := fun s => (s, s) }

/-- Splitting a character list at every `/`, the way `os.path` separates
POSIX path segments. -/
def splitSlash : List Char → List (List Char)
  | [] => [[]]
  | c :: rest =>
      let r := splitSlash rest
      if c = '/' then [] :: r
      else (c :: r.headD []) :: r.tail

/-- Break a character list around its last `.`: the characters before it
and the extension starting with the dot, or `none` when there is no dot. -/
def breakAtLastDot : List Char → Option (List Char × List Char)
  | [] => none
  | c :: rest =>
      match breakAtLastDot rest with
      | some (root, ext) => some (c :: root, ext)
      | none => if c = '.' then some ([], '.' :: rest) else none

/-- Python `os.path.basename` on a POSIX path: the segment after the last
slash. -/
def basename (p : String) : String :=
  ((splitSlash p.toList).getLastD p.toList).asString

/-- Python `os.path.splitext` on a bare filename: split at the last dot,
unless every character before that dot is itself a dot (so `.cshrc` keeps
an empty extension). -/
def splitextB (b : String) : String × String :=
  match breakAtLastDot b.toList with
  | none => (b, "")
  | some (root, ext) =>
      if root.all (fun c => c = '.') then (b, "")
      else (root.asString, ext.asString)

/-- Python `str.lower` restricted to ASCII, as applied to extensions and
format names. -/
def lowerString (s : String) : String :=
  (s.toList.map Char.toLower).asString

/-- `os.path.splitext(p)[1]`: the extension of the path's final segment. -/
def splitextExt (p : String) : String := (splitextB (basename p)).2

/-- `os.path.splitext(os.path.basename(p))[0]` as used by
`step_01_normalize_input` to name outputs. -/
def basenameRoot (p : String) : String := (splitextB (basename p)).1

namespace Step01

/-- `step_01_normalize_input.process_pdf`: the rasterizer
`convert_from_path` is external, so the number of pages it returns is a
parameter; page `i` (0-based) is saved as
`output_dir/<basename>_page_<i+1>.<format.lower()>`. The `dpi` argument is
forwarded to the rasterizer and does not affect the output names. -/
def process_pdf (pdf_path output_dir : String) (dpi : Nat)
    (output_format : String) (pageCount : Nat) : List String :=
  (List.range pageCount).map fun i =>
    String.append output_dir
      (String.append "/"
        (String.append (basenameRoot pdf_path)
          (String.append "_page_"
            (String.append (toString (i + 1))
              (String.append "." (lowerString output_format))))))

/-- `step_01_normalize_input.process_image`: re-encode a single image as
`output_dir/<basename>.<format.lower()>`. -/
def process_image (image_path output_dir : String)
    (output_format : String) : String :=
  String.append output_dir
    (String.append "/"
      (String.append (basenameRoot image_path)
        (String.append "." (lowerString output_format))))

/-- `step_01_normalize_input.normalize_file`: dispatch on the lowercased
extension — `.pdf` goes to `process_pdf` (a list of page paths), anything
else to `process_image` (a single path). -/
def normalize_file (file_path output_dir : String) (pdf_dpi : Nat)
    (output_format : String) (pageCount : Nat) : NormResult :=
  if lowerString (splitextExt file_path) = ".pdf" then
    NormResult.many (process_pdf file_path output_dir pdf_dpi output_format pageCount)
  else
    NormResult.one (process_image file_path output_dir output_format)

end Step01

/-- The module-level function names defined by
`src/steps/step_01_normalize_input.py`. -/
def step01ModuleFunctions : List String :=
  ["process_pdf", "process_image", "normalize_file"]

/-- The name `src/pipeline_manager.py` imports from
`steps.step_01_normalize_input` at line 4, aliased there to
`normalize_file`. -/
def pipelineManagerImportedName : String := "process_file"

/-- The parameter names of `step_01_normalize_input.normalize_file`. -/
def normalizeFileParams : List String :=
  ["file_path", "output_dir", "pdf_dpi", "output_format"]

/-- The keyword arguments `PipelineManager._run_step_01_normalize_input`
passes in its call `normalize_file(file_path=f, config=self.config)`. -/
def runnerCallKeywords : List String := ["file_path", "config"]

/-- The cv2 filter primitives used by `step_02_preprocess_image`, opaque
external collaborators over an abstract image type: `cvtColor` to gray,
`GaussianBlur` with a kernel size, `adaptiveThreshold` with block size and
constant, Otsu and simple `threshold`, and the composite deskew rotation. -/
structure FilterOps (Img : Type) where
  grayscale : Img → Img
  gaussianBlur : Img → Nat × Nat → Img
  adaptiveThreshold : Img → Nat → Int → Img
  otsuThreshold : Img → Img
  simpleThreshold : Img → Nat → Img
  deskew : Img → Img

/-- One filter descriptor of the preprocess `pipeline` list: a dict with a
`type` key, an optional `enabled` key, and the optional method-specific
parameter keys read with `.get`. -/
structure FilterStep where
  type : String
  enabled? : Option Bool
  method? : Option String
  threshold? : Option Nat
  block_size? : Option Nat
  c? : Option Int
  kernel_size? : Option (Nat × Nat)
deriving DecidableEq, Repr

namespace Step02

/-- `step_02_preprocess_image._apply_threshold`: reads
`params.get("method", "adaptive_gaussian")` and dispatches; a method that
is none of `adaptive_gaussian`, `otsu`, `simple` raises a `ValueError`. -/
def apply_threshold {Img : Type} (ops : FilterOps Img) (image : Img)
    (params : FilterStep) : Except String Img :=
  if params.method?.getD "adaptive_gaussian" = "adaptive_gaussian" then
    Except.ok (ops.adaptiveThreshold image (params.block_size?.getD 11)
      (params.c?.getD 2))
  else if params.method?.getD "adaptive_gaussian" = "otsu" then
    Except.ok (ops.otsuThreshold image)
  else if params.method?.getD "adaptive_gaussian" = "simple" then
    Except.ok (ops.simpleThreshold image (params.threshold?.getD 127))
  else
    Except.error (String.append "Unknown threshold method: "
      (params.method?.getD "adaptive_gaussian"))

/-- One iteration of the filter loop in
`step_02_preprocess_image.process_image`: `if not step.get("enabled",
False): continue`, then dispatch on `step["type"]`, with an unknown type
falling through to `continue`. A skip leaves the working image unchanged,
returned as `ok`. -/
def apply_step {Img : Type} (ops : FilterOps Img) (image : Img)
    (step : FilterStep) : Except String Img :=
  if step.enabled?.getD false = false then
    Except.ok image
  else if step.type = "grayscale" then
    Except.ok (ops.grayscale image)
  else if step.type = "denoise" then
    Except.ok (ops.gaussianBlur image (step.kernel_size?.getD (5, 5)))
  else if step.type = "threshold" then
    apply_threshold ops image step
  else if step.type = "deskew" then
    Except.ok (ops.deskew image)
  else
    Except.ok image

/-- The whole filter loop of `step_02_preprocess_image.process_image`
over the configured `pipeline` list: descriptors applied in order to the
working image, a raised `ValueError` aborting the chain. -/
def runChain {Img : Type} (ops : FilterOps Img) (steps : List FilterStep)
    (image : Img) : Except String Img :=
  match steps with
  | [] => Except.ok image
  | step :: rest =>
      match apply_step ops image step with
      | Except.error e => Except.error e
      | Except.ok next => runChain ops rest next

end Step02

/-- Deterministic stand-in filter primitives on `Nat` images, used to
evaluate the chain at concrete inputs. -/
def natOps : FilterOps Nat :=
  { grayscale := fun n => n + 1
  , gaussianBlur := fun n k => n + k.1 + k.2
  , adaptiveThreshold := fun n b c => n + b + c.natAbs
  , otsuThreshold := fun n => n * 2
  , simpleThreshold := fun n t => n + t
  , deskew := fun n => n + 7 }

/-- The angle normalization of `step_02_preprocess_image._apply_deskew`
on the angle returned by `cv2.minAreaRect`: below −45 the perpendicular
correction `−(90 + angle)` is used, otherwise `−angle`. -/
def deskewCorrection (angle : ℚ) : ℚ :=
  if angle < -45 then -(90 + angle) else -angle

/-- The `model_config` block read by `step_03_layout_analysis`: the two
keys `_initialize_model` looks up with `.get`, each optional. -/
structure ModelConfig where
  type? : Option String
  label_map? : Option (List (Nat × String))
deriving DecidableEq, Repr

/-- A constructed `lp.Detectron2LayoutModel`, identified by the arguments
it was built from. -/
structure ModelInstance where
  model_type : String
  label_map : List (Nat × String)
deriving DecidableEq, Repr

/-- Default `type` of `_initialize_model`. -/
def defaultModelType : String :=
  "lp://PubLayNet/mask_rcnn_X_101_32x8d_FPN_3x/config"

/-- Default `label_map` of `_initialize_model`. -/
def defaultLabelMap : List (Nat × String) :=
  [(0, "Text"), (1, "Title"), (2, "List"), (3, "Table"), (4, "Figure")]

/-- The model construction performed by `_initialize_model` on a cache
miss: `lp.Detectron2LayoutModel(config_path=..., label_map=...)` with the
config's values or their defaults. -/
def buildModel (config : ModelConfig) : ModelInstance :=
  { model_type := config.type?.getD defaultModelType
  , label_map := config.label_map?.getD defaultLabelMap }

namespace Step03

/-- `step_03_layout_analysis._initialize_model` with the module-global
`_model_cache` passed explicitly: if the cache is non-`None` it is
returned unchanged, ignoring `config`; otherwise a model is built from
`config` and stored. Returns the model and the updated cache. -/
def initialize_model (cache : Option ModelInstance) (config : ModelConfig) :
    ModelInstance × Option ModelInstance :=
  match cache with
  | some m => (m, some m)
  | none =>
      let m := buildModel config
      (m, some m)

end Step03

/-- A model configuration selecting model A. -/
def mcA : ModelConfig := { type? := some "modelA", label_map? := none }

/-- A model configuration selecting model B. -/
def mcB : ModelConfig := { type? := some "modelB", label_map? := none }

/-- Observable outcome of `main` in `src/main.py`: whether
`logger.exception` ran, whether the `finally` block reported elapsed
time, and the process exit status. -/
structure MainReport where
  errorLogged : Bool
  elapsedReported : Bool
  exitCode : Nat
deriving DecidableEq, Repr

/-- `main` of `src/main.py`, abstracted over the outcome of
`PipelineManager(...)` plus `manager.run()`: the `except Exception` block
logs the error, the `finally` block always reports elapsed time, and —
since the exception is swallowed and no `sys.exit` appears anywhere —
the process exits with status 0 in both cases. -/
def mainEntry (runOutcome : Except String Unit) : MainReport :=
  match runOutcome with
  | Except.error _ =>
      { errorLogged := true, elapsedReported := true, exitCode := 0 }
  | Except.ok _ =>
      { errorLogged := false, elapsedReported := true, exitCode := 0 }

lemma flatten_foldl_aux (results : List NormResult) (acc : List String) :
    List.foldl
      (fun a r =>
        match r with
        | NormResult.many l => a ++ l
        | NormResult.one s => a ++ [s])
      acc results = acc ++ flattenResultsSpec results := by
  induction results generalizing acc with
  | nil => simp [flattenResultsSpec]
  | cons r rest ih =>
      cases r with
      | one s => simp [flattenResultsSpec, ih, List.append_assoc]
      | many l => simp [flattenResultsSpec, ih, List.append_assoc]

/-- C4: the dispatcher's flattened output list equals the order-preserving
concatenation, in input order, of each per-item result taken as itself
when it is a sequence and as a one-element list when it is a scalar. -/
theorem flattening_law (results : List NormResult) :
    flattenResults results = flattenResultsSpec results := by
  unfold flattenResults
  rw [flatten_foldl_aux]
  simp

/-- C6 counterexample: the claim says an input angle of −50 maps to 40,
but the deskew correction of `_apply_deskew` maps −50 to
`−(90 + (−50)) = −40`. -/
theorem deskew_minus50_counterexample :
    deskewCorrection (-50) ≠ 40 ∧ deskewCorrection (-50) = -40 := by
  constructor
  · norm_num [deskewCorrection]
  · norm_num [deskewCorrection]

/-- C6 (amended): the correction angle is `−(90 + a)` when the detected
angle `a` is below −45 and `−a` otherwise; in particular −50 maps to −40
and −10 maps to 10. -/
theorem deskew_angle_normalization :
    (∀ a : ℚ, a < -45 → deskewCorrection a = -(90 + a)) ∧
    (∀ a : ℚ, -45 ≤ a → deskewCorrection a = -a) ∧
    deskewCorrection (-50) = -40 ∧ deskewCorrection (-10) = 10 := by
  refine ⟨fun a h => ?_, fun a h => ?_, by norm_num [deskewCorrection],
    by norm_num [deskewCorrection]⟩
  · simp [deskewCorrection, h]
  · simp [deskewCorrection, not_lt.mpr h]

/-- C6 witness: the two branch hypotheses of the normalization rule,
discharged at −50 and −10. -/
theorem deskew_angle_normalization_witness :
    deskewCorrection (-50) = -(90 + (-50)) ∧ deskewCorrection (-10) = -(-10) :=
  ⟨deskew_angle_normalization.1 (-50) (by norm_num),
   deskew_angle_normalization.2.1 (-10) (by norm_num)⟩

/-- C5 counterexample: initializing the layout model with configuration A
and then again with configuration B returns the cached model built from A,
not a model built from B — the cache ignores the configuration. -/
theorem model_cache_stale_counterexample :
    (Step03.initialize_model (Step03.initialize_model none mcA).2 mcB).1 =
      buildModel mcA ∧
    (Step03.initialize_model (Step03.initialize_model none mcA).2 mcB).1 ≠
      buildModel mcB := by
  constructor
  · rfl
  · decide

/-- C5 (amended): `_initialize_model` memoizes unconditionally — with a
non-empty cache it returns the cached instance and leaves the cache
unchanged whatever the configuration is, and only a first call builds a
model from its configuration and stores it. -/
theorem model_cache_unconditional (m : ModelInstance) (config : ModelConfig) :
    Step03.initialize_model (some m) config = (m, some m) ∧
    Step03.initialize_model none config =
      (buildModel config, some (buildModel config)) :=
  ⟨rfl, rfl⟩

/-- C9 counterexample: on an orchestrator error, `main` logs the error
and reports elapsed time but the process exit status is 0 — a successful
status, not a failing one as the claim states. -/
theorem main_exit_status_counterexample :
    (mainEntry (Except.error "ValueError")).errorLogged = true ∧
    (mainEntry (Except.error "ValueError")).elapsedReported = true ∧
    (mainEntry (Except.error "ValueError")).exitCode = 0 := by
  decide

/-- C9 (amended): for every run in which the orchestrator raises, the
top-level entry point catches the exception, logs it, still reports the
elapsed wall-clock time, and then exits with a successful status 0 — the
exception is swallowed and no failing exit status is set. -/
theorem main_catches_logs_reports_exits_zero (e : String) :
    mainEntry (Except.error e) =
      { errorLogged := true, elapsedReported := true, exitCode := 0 } :=
  rfl

/-- C2: the runner's imported name `process_file` is not a function of
`step_01_normalize_input`, the keyword `config` the runner passes is not
a parameter of `normalize_file`, and `output_dir` is not among the
keywords the runner passes — while `normalize_file` itself does produce
`<basename>_page_<n>.<ext>` per PDF page and `<basename>.<ext>` for an
image. -/
theorem step01_import_and_dispatch_mismatch :
    pipelineManagerImportedName ∉ step01ModuleFunctions ∧
    "config" ∉ normalizeFileParams ∧
    "output_dir" ∉ runnerCallKeywords ∧
    Step01.normalize_file "in/scan.pdf" "out" 150 "png" 2 =
      NormResult.many ["out/scan_page_1.png", "out/scan_page_2.png"] ∧
    Step01.normalize_file "in/photo.jpg" "out" 150 "png" 0 =
      NormResult.one "out/photo.png" := by
  refine ⟨by decide, by decide, by decide, ?_, ?_⟩ <;> rfl

/-- A descriptor with an unrecognized type and `enabled: true`. -/
def unknownOpStep : FilterStep :=
  { type := "unknown_op", enabled? := some true, method? := none
  , threshold? := none, block_size? := none, c? := none, kernel_size? := none }

/-- A plain enabled grayscale descriptor. -/
def grayStep : FilterStep :=
  { type := "grayscale", enabled? := some true, method? := none
  , threshold? := none, block_size? := none, c? := none, kernel_size? := none }

/-- A grayscale descriptor whose dict has no `enabled` key at all. -/
def noEnabledKeyStep : FilterStep :=
  { type := "grayscale", enabled? := none, method? := none
  , threshold? := none, block_size? := none, c? := none, kernel_size? := none }

/-- C7: a descriptor whose type is unrecognized or whose enabled flag is
false is skipped without an error — it leaves the working image unchanged
and the rest of the chain runs exactly as it would without the entry. -/
theorem unknown_or_disabled_filter_skips {Img : Type} (ops : FilterOps Img)
    (step : FilterStep) (rest : List FilterStep) (image : Img)
    (h : step.enabled? = some false ∨
      step.type ∉ (["grayscale", "denoise", "threshold", "deskew"] : List String)) :
    Step02.apply_step ops image step = Except.ok image ∧
    Step02.runChain ops (step :: rest) image = Step02.runChain ops rest image := by
  have hskip : Step02.apply_step ops image step = Except.ok image := by
    rcases h with h | h
    · simp [Step02.apply_step, h]
    · simp only [List.mem_cons, List.not_mem_nil, or_false, not_or] at h
      obtain ⟨h1, h2, h3, h4⟩ := h
      by_cases he : step.enabled?.getD false = false
      · simp [Step02.apply_step, he]
      · simp [Step02.apply_step, he, h1, h2, h3, h4]
  refine ⟨hskip, ?_⟩
  simp [Step02.runChain, hskip]

/-- C7 witness: `unknown_op` with `enabled: true` in front of a grayscale
filter, on the image `3` with the stand-in primitives. -/
theorem unknown_or_disabled_filter_skips_witness :
    (unknownOpStep.enabled? = some false ∨
      unknownOpStep.type ∉
        (["grayscale", "denoise", "threshold", "deskew"] : List String)) ∧
    (Step02.apply_step natOps 3 unknownOpStep = Except.ok 3 ∧
      Step02.runChain natOps (unknownOpStep :: [grayStep]) 3 =
        Step02.runChain natOps [grayStep] 3) :=
  ⟨Or.inr (by decide),
   unknown_or_disabled_filter_skips natOps unknownOpStep [grayStep] 3
     (Or.inr (by decide))⟩

/-- C8: `_apply_threshold` raises exactly when the effective method (the
`method` key, defaulting to `adaptive_gaussian`) is none of
`adaptive_gaussian`, `otsu`, `simple`; for each of those it returns an
image without error. -/
theorem threshold_method_fatal_iff {Img : Type} (ops : FilterOps Img)
    (image : Img) (params : FilterStep) :
    (∃ e, Step02.apply_threshold ops image params = Except.error e) ↔
      params.method?.getD "adaptive_gaussian" ∉
        (["adaptive_gaussian", "otsu", "simple"] : List String) := by
  by_cases h1 : params.method?.getD "adaptive_gaussian" = "adaptive_gaussian"
  · simp [Step02.apply_threshold, h1]
  · by_cases h2 : params.method?.getD "adaptive_gaussian" = "otsu"
    · simp [Step02.apply_threshold, h1, h2]
    · by_cases h3 : params.method?.getD "adaptive_gaussian" = "simple"
      · simp [Step02.apply_threshold, h1, h2, h3]
      · simp [Step02.apply_threshold, h1, h2, h3]

/-- C10: a descriptor is applied only when `enabled` is present and true;
with the key absent (or any non-true value) the dict lookup defaults to
false and the entry is skipped, leaving the image unchanged and the rest
of the chain unaffected. -/
theorem filter_applied_only_when_enabled_true {Img : Type}
    (ops : FilterOps Img) (image : Img) (step : FilterStep)
    (rest : List FilterStep) (h : step.enabled? ≠ some true) :
    Step02.apply_step ops image step = Except.ok image ∧
    Step02.runChain ops (step :: rest) image = Step02.runChain ops rest image := by
  have hf : step.enabled?.getD false = false := by
    cases hs : step.enabled? with
    | none => rfl
    | some b =>
        cases b with
        | false => rfl
        | true => exact absurd hs h
  have hskip : Step02.apply_step ops image step = Except.ok image := by
    simp [Step02.apply_step, hf]
  refine ⟨hskip, ?_⟩
  simp [Step02.runChain, hskip]

/-- C10 witness: a recognized grayscale descriptor lacking the `enabled`
key, in front of an enabled grayscale filter, on the image `5`. -/
theorem filter_applied_only_when_enabled_true_witness :
    noEnabledKeyStep.enabled? ≠ some true ∧
    (Step02.apply_step natOps 5 noEnabledKeyStep = Except.ok 5 ∧
      Step02.runChain natOps (noEnabledKeyStep :: [grayStep]) 5 =
        Step02.runChain natOps [grayStep] 5) :=
  ⟨by decide,
   filter_applied_only_when_enabled_true natOps 5 noEnabledKeyStep [grayStep]
     (by decide)⟩

lemma afterStep01_invoked_cases (pipeline : List String) (env : PipelineEnv) :
    (afterStep01 pipeline env).invoked = [] ∨
      (afterStep01 pipeline env).invoked = [step01Name] := by
  unfold afterStep01
  split <;> simp

/-- C1: whenever a stage after the first is enabled (step 2 or step 3) and
the carried-forward output of the previously enabled stage is empty or
absent, the run raises a `ValueError` (a configuration error) with only
the earlier runners invoked — in particular neither the step-2 nor the
step-3 runner has been invoked. -/
theorem run_aborts_on_missing_predecessor_output
    (pipeline : List String) (env : PipelineEnv)
    (hlater : pipeline.contains step02Name = true ∨
      pipeline.contains step03Name = true)
    (hempty : isFalsy (afterStep01 pipeline env).files = true) :
    (∃ msg, PipelineManager.run pipeline env =
      Except.error { invoked := (afterStep01 pipeline env).invoked,
                     message := msg }) ∧
    (afterStep01 pipeline env).invoked.contains step02Name = false ∧
    (afterStep01 pipeline env).invoked.contains step03Name = false := by
  have hnc : (afterStep01 pipeline env).invoked.contains step02Name = false ∧
      (afterStep01 pipeline env).invoked.contains step03Name = false := by
    rcases afterStep01_invoked_cases pipeline env with h | h <;>
      rw [h] <;> exact ⟨by decide, by decide⟩
  refine ⟨?_, hnc.1, hnc.2⟩
  by_cases h2 : step02Name ∈ pipeline
  · exact ⟨err02, by simp [PipelineManager.run, guardedStage, h2, hempty]⟩
  · have h3 : step03Name ∈ pipeline := by
      rcases hlater with h | h
      · exact absurd (List.mem_of_elem_eq_true h) h2
      · exact List.mem_of_elem_eq_true h
    exact ⟨err03, by simp [PipelineManager.run, guardedStage, h2, h3, hempty]⟩

/-- C1 witness: the pipeline `[step_02_preprocess_image]` alone, with no
step-1 output, aborts with a configuration error before invoking any
stage runner. -/
theorem run_aborts_on_missing_predecessor_output_witness :
    (([step02Name] : List String).contains step02Name = true ∨
      ([step02Name] : List String).contains step03Name = true) ∧
    isFalsy (afterStep01 [step02Name] emptyEnv).files = true ∧
    ((∃ msg, PipelineManager.run [step02Name] emptyEnv =
      Except.error { invoked := (afterStep01 [step02Name] emptyEnv).invoked,
                     message := msg }) ∧
    (afterStep01 [step02Name] emptyEnv).invoked.contains step02Name = false ∧
    (afterStep01 [step02Name] emptyEnv).invoked.contains step03Name = false) :=
  ⟨Or.inl (by decide), by decide,
   run_aborts_on_missing_predecessor_output [step02Name] emptyEnv
     (Or.inl (by decide)) (by decide)⟩

/-- C3 counterexample: with `app.pipeline = [step_02_preprocess_image,
step_01_normalize_input]` the runners execute as `[step_01, step_02]`, not
in the configured order, and swapping the configured order leaves the
whole run's result unchanged — the list's order is not significant. -/
theorem run_ignores_pipeline_order_counterexample :
    invokedList (PipelineManager.run [step02Name, step01Name] exEnv) ≠
      [step02Name, step01Name] ∧
    invokedList (PipelineManager.run [step02Name, step01Name] exEnv) =
      [step01Name, step02Name] ∧
    PipelineManager.run [step02Name, step01Name] exEnv =
      PipelineManager.run [step01Name, step02Name] exEnv := by
  refine ⟨by decide, by decide, rfl⟩

lemma invokedList_run_sublist (pipeline : List String) (env : PipelineEnv) :
    List.Sublist (invokedList (PipelineManager.run pipeline env))
      [step01Name, step02Name, step03Name] := by
  have hs1 := afterStep01_invoked_cases pipeline env
  unfold PipelineManager.run
  by_cases h2 : pipeline.contains step02Name = true
  · by_cases hf : isFalsy (afterStep01 pipeline env).files = true
    · simp only [h2, guardedStage, hf, if_true]
      rcases hs1 with h | h <;> simp [invokedList, h]
    · rw [Bool.not_eq_true] at hf
      simp only [h2, guardedStage, hf, if_true, Bool.false_eq_true, if_false]
      by_cases h3 : pipeline.contains step03Name = true
      · by_cases hg : isFalsy (some (runStep02 env
            ((afterStep01 pipeline env).files.getD []))) = true
        · simp only [h3, hg, if_true]
          rcases hs1 with h | h <;> simp [invokedList, h]
        · rw [Bool.not_eq_true] at hg
          simp only [h3, hg, if_true, Bool.false_eq_true, if_false]
          rcases hs1 with h | h <;> simp [invokedList, h]
      · simp only [Bool.not_eq_true] at h3
        simp only [h3, Bool.false_eq_true, if_false]
        rcases hs1 with h | h <;> simp [invokedList, h]
  · rw [Bool.not_eq_true] at h2
    simp only [h2, guardedStage, Bool.false_eq_true, if_false]
    by_cases h3 : pipeline.contains step03Name = true
    · by_cases hf : isFalsy (afterStep01 pipeline env).files = true
      · simp only [h3, hf, if_true]
        rcases hs1 with h | h <;> simp [invokedList, h]
      · rw [Bool.not_eq_true] at hf
        simp only [h3, hf, if_true, Bool.false_eq_true, if_false]
        rcases hs1 with h | h <;> simp [invokedList, h]
    · simp only [Bool.not_eq_true] at h3
      simp only [h3, Bool.false_eq_true, if_false]
      rcases hs1 with h | h <;> simp [invokedList, h]

/-- C3 (amended): the orchestrator selects stages by membership in the
`app.pipeline` list only — two lists agreeing on membership of the three
stage names produce identical runs — and the runners it invokes always
appear in the fixed source order step 1, step 2, step 3. -/
theorem run_order_fixed_membership_only (p q : List String)
    (env : PipelineEnv)
    (h1 : p.contains step01Name = q.contains step01Name)
    (h2 : p.contains step02Name = q.contains step02Name)
    (h3 : p.contains step03Name = q.contains step03Name) :
    PipelineManager.run p env = PipelineManager.run q env ∧
    List.Sublist (invokedList (PipelineManager.run p env))
      [step01Name, step02Name, step03Name] := by
  refine ⟨?_, invokedList_run_sublist p env⟩
  simp only [PipelineManager.run, afterStep01, h1, h2, h3]

/-- C3 amended-claim witness: the two orderings of the same two enabled
stages, over the concrete environment. -/
theorem run_order_fixed_membership_only_witness :
    (([step02Name, step01Name] : List String).contains step01Name =
      ([step01Name, step02Name] : List String).contains step01Name) ∧
    (PipelineManager.run [step02Name, step01Name] exEnv =
      PipelineManager.run [step01Name, step02Name] exEnv ∧
    List.Sublist (invokedList (PipelineManager.run [step02Name, step01Name] exEnv))
      [step01Name, step02Name, step03Name]) :=
  ⟨by decide,
   run_order_fixed_membership_only [step02Name, step01Name]
     [step01Name, step02Name] exEnv (by decide) (by decide) (by decide)⟩
